import Mathlib

/-!
Shallow embedding of `burndown_chart.py` (kirolossbaky/burndown-chart-generator).

Modelling conventions:
* Python `datetime` values are seconds since an epoch, as `Int`; a calendar
  day is `86400` seconds and calendar days are epoch-aligned.
* Python numbers (`int`/`float`) are modelled as `ℚ` (exact arithmetic).
* Raising `BurndownChartError(msg)` / `ZeroDivisionError` is modelled with
  `Except PyError`.  The mutating method `update_progress` is modelled as a
  function returning `(Except PyError Unit) × State`, so the state at the
  moment of a raise is observable.
* The pandas `DataFrame` is modelled columnwise, exactly as it is built in
  the source (a dict of four aligned columns).
* `np.random.randint` is an injected parameter `randint : Nat → Nat → Nat`;
  theorems assume only its documented contract `lo ≤ randint lo hi < hi`.
-/

namespace Burndown

abbrev DateTime := Int

def oneDay : Int := 86400

/-- Python exceptions raised by the module: `BurndownChartError(msg)` and the
interpreter-level `ZeroDivisionError`. -/
inductive PyError where
  | burndownChartError : String → PyError
  | zeroDivisionError : PyError
deriving DecidableEq, Repr

/-- Python truthiness coalescing `a or b` for an optional number `a`:
`None`, `0` and `0.0` are falsy. -/
def orTruthy (a : Option ℚ) (b : ℚ) : ℚ :=
  match a with
  | none => b
  | some x => if x = 0 then b else x

/-- `class Task` (burndown_chart.py lines 10-26). -/
structure Task where
  name : String
  estimated_points : ℚ
  actual_points : Option ℚ
  complexity : Option String
  status : String
  start_date : Option DateTime
  end_date : Option DateTime
deriving DecidableEq, Repr

/-- `Task.__init__`: status starts at `'Not Started'`, no dates. -/
def Task.init (name : String) (estimated_points : ℚ) (actual_points : Option ℚ)
    (complexity : Option String) : Task :=
  Task.mk name estimated_points actual_points complexity "Not Started" none none

/-- `Task.complete(actual_points=None, end_date=None)` (lines 28-37).
`self.actual_points = actual_points or self.estimated_points` uses Python
truthiness, and `end_date or datetime.now()` (a datetime is always truthy,
so only `None` falls back to `now`). -/
def Task.complete (t : Task) (actual_points : Option ℚ) (end_date : Option DateTime)
    (now : DateTime) : Task :=
  { t with
    status := "Completed"
    actual_points := some (orTruthy actual_points t.estimated_points)
    end_date := some (match end_date with | none => now | some d => d) }

/-- One entry of `self.progress_log`. -/
structure ProgressEntry where
  date : DateTime
  completed_points : ℚ
  description : Option String
deriving DecidableEq, Repr

/-- The tracking dataframe, columnwise: `Date`, `Ideal_Burndown`,
`Actual_Burndown`, `Estimated_Burndown` (aligned columns, one row per day). -/
structure DataFrame where
  dates : List DateTime
  ideal : List ℚ
  actual : List ℚ
  estimated : List ℚ
deriving DecidableEq, Repr

/-- State of a `BurndownChart` object. -/
structure BurndownChart where
  project_name : String
  start_date : DateTime
  end_date : DateTime
  total_story_points : ℚ
  tasks : List Task
  progress_log : List ProgressEntry
  df : DataFrame
deriving DecidableEq, Repr

/-- `pd.date_range(start=s, end=e)` with daily frequency: the timestamps
`s, s + 1 day, s + 2 days, ...` not exceeding `e` (empty when `e < s`). -/
def dateRange (s e : DateTime) : List DateTime :=
  if e < s then []
  else (List.range (((e - s) / oneDay).toNat + 1)).map
    (fun (k : Nat) => s + (k : Int) * oneDay)

/-- The `ideal_burndown` list comprehension (lines 114-115):
`[total - total * day / (total_days - 1) for day in range(total_days)]`. -/
def idealBurndown (total : ℚ) (total_days : Nat) : List ℚ :=
  (List.range total_days).map
    (fun (day : Nat) => total - total * (day : ℚ) / ((total_days : ℚ) - 1))

/-- `BurndownChart._create_initial_dataframe` (lines 106-124).  The `Actual`
and `Estimated` columns are copies of the ideal curve.  When
`total_days == 1` the first step of the list comprehension divides by zero,
which Python raises as `ZeroDivisionError`. -/
def create_initial_dataframe (s e : DateTime) (total : ℚ) :
    Except PyError DataFrame :=
  if (dateRange s e).length = 1 then Except.error PyError.zeroDivisionError
  else Except.ok (DataFrame.mk (dateRange s e)
    (idealBurndown total (dateRange s e).length)
    (idealBurndown total (dateRange s e).length)
    (idealBurndown total (dateRange s e).length))

/-- Line 57-58: `if start_date >= end_date: end_date = start_date +
timedelta(days=14)`. -/
def adjustEnd (s e : DateTime) : DateTime :=
  if s ≥ e then s + 14 * oneDay else e

/-- `BurndownChart.__init__` (lines 40-73).  Name must be a non-empty string;
an end date not strictly after the start is silently replaced via
`adjustEnd`; total story points must be positive.  (The `isinstance` checks
on dates/strings/numbers are absorbed by the Lean types.) -/
def mkBurndownChart (project_name : String) (start_date end_date : DateTime)
    (total_story_points : ℚ) : Except PyError BurndownChart :=
  if project_name = "" then
    Except.error (PyError.burndownChartError "Project name must be a non-empty string")
  else if total_story_points ≤ 0 then
    Except.error (PyError.burndownChartError "Total story points must be a positive number")
  else
    Except.map
      (fun df => BurndownChart.mk project_name start_date (adjustEnd start_date end_date)
        total_story_points [] [] df)
      (create_initial_dataframe start_date (adjustEnd start_date end_date)
        total_story_points)

/-- `BurndownChart.add_task` (lines 75-85): appends and returns the task.
(The `isinstance(task, Task)` check is absorbed by the Lean type.) -/
def add_task (c : BurndownChart) (task : Task) : BurndownChart × Task :=
  ({ c with tasks := c.tasks ++ [task] }, task)

/-- Python's `str.lower()` (ASCII), as called on the complexity argument. -/
def pyLower (s : String) : String := String.mk (s.data.map Char.toLower)

/-- The `complexity_map` dictionary of `estimate_complexity_points`. -/
def complexity_map (s : String) : Option (Nat × Nat) :=
  if s = "easy" then some (1, 3)
  else if s = "medium" then some (3, 8)
  else if s = "hard" then some (8, 13)
  else none

/-- `BurndownChart.estimate_complexity_points` (lines 87-104).  Looks up
`complexity.lower()` in the map and returns
`np.random.randint(min_points, max_points + 1)`; the random source is
injected as `randint`. -/
def estimate_complexity_points (complexity : String) (randint : Nat → Nat → Nat) :
    Except PyError Nat :=
  match complexity_map (pyLower complexity) with
  | none => Except.error (PyError.burndownChartError
      "Invalid complexity. Choose from: easy, medium, hard")
  | some (min_points, max_points) => Except.ok (randint min_points (max_points + 1))

/-- Lines 145-147: `date = max(min(date, self.end_date), self.start_date)`
when the date is outside the project timeline, otherwise unchanged. -/
def clampDate (date s e : DateTime) : DateTime :=
  if date < s ∨ date > e then max (min date e) s else date

/-- Lines 158-160: `mask = self.df['Date'] == pd.to_datetime(date)` followed
by `self.df.loc[mask, 'Actual_Burndown'] = v`: every row whose `Date` equals
`date` gets its `Actual_Burndown` set to `v` (no row: silent no-op). -/
def maskSet (dates : List DateTime) (col : List ℚ) (date : DateTime) (v : ℚ) :
    List ℚ :=
  List.zipWith (fun dt a => if dt = date then v else a) dates col

/-- `BurndownChart.update_progress` (lines 126-160), with the state threaded
explicitly: validation failures raise before any mutation, so the returned
state equals the input state on error. -/
def update_progress (c : BurndownChart) (date : DateTime)
    (completed_story_points : ℚ) (description : Option String) :
    Except PyError Unit × BurndownChart :=
  if completed_story_points < 0 then
    (Except.error (PyError.burndownChartError
      "Completed story points must be a non-negative number"), c)
  else if completed_story_points > c.total_story_points then
    (Except.error (PyError.burndownChartError
      "Completed story points cannot exceed total story points"), c)
  else
    (Except.ok (), { c with
      progress_log := c.progress_log ++
        [ProgressEntry.mk (clampDate date c.start_date c.end_date)
          completed_story_points description]
      df := { c.df with
        actual := maskSet c.df.dates c.df.actual
          (clampDate date c.start_date c.end_date)
          (c.total_story_points - completed_story_points) } })

/-- Result dictionary of `get_progress_summary`. -/
structure ProgressSummary where
  total_story_points : ℚ
  completed_story_points : ℚ
  progress_percentage : ℚ
  estimated_vs_actual_variance : ℚ
deriving DecidableEq, Repr

/-- `BurndownChart.get_progress_summary` (lines 203-229).  With an empty log
it returns the all-zero summary; otherwise `latest = progress_log[-1]`,
`total_actual` sums `task.actual_points or task.estimated_points` (Python
truthiness: `None` and `0` both fall back to the estimate), and the variance
is `abs(est - act) / est * 100` guarded by `if total_estimated else 0`. -/
def get_progress_summary (c : BurndownChart) : ProgressSummary :=
  match c.progress_log.getLast? with
  | none => ProgressSummary.mk c.total_story_points 0 0 0
  | some latest_progress =>
    ProgressSummary.mk c.total_story_points latest_progress.completed_points
      (latest_progress.completed_points / c.total_story_points * 100)
      (if (c.tasks.map (fun t => t.estimated_points)).sum ≠ 0
        then |(c.tasks.map (fun t => t.estimated_points)).sum -
          (c.tasks.map (fun t => orTruthy t.actual_points t.estimated_points)).sum| /
          (c.tasks.map (fun t => t.estimated_points)).sum * 100
        else 0)

/-- Day count between two timestamps, as used in the spec sentence
`series.length == daysBetween(start, end) + 1`: the number of whole days
from `s` to `e` (floor). -/
def daysBetween (s e : DateTime) : Nat := ((e - s) / oneDay).toNat

/-- Two timestamps fall on the same (epoch-aligned) calendar day. -/
def sameCalendarDay (a b : DateTime) : Prop := a / oneDay = b / oneDay

instance (a b : DateTime) : Decidable (sameCalendarDay a b) :=
  inferInstanceAs (Decidable (a / oneDay = b / oneDay))

/-- The variance formula exactly as the spec's words state it (claim C7):
a task *lacking* actual points contributes its estimate, while a task whose
actual points are present contributes them, even when they are `0`. -/
def specVariance (tasks : List Task) : ℚ :=
  if (tasks.map (fun t => t.estimated_points)).sum = 0 then 0
  else |(tasks.map (fun t => t.estimated_points)).sum -
    (tasks.map (fun t =>
      match t.actual_points with
      | some a => a
      | none => t.estimated_points)).sum| /
    (tasks.map (fun t => t.estimated_points)).sum * 100

/-- The variance formula as amended by the code's truthiness behaviour:
a task lacking actual points *or whose actual points equal zero* contributes
its estimate. -/
def specVarianceAmended (tasks : List Task) : ℚ :=
  if (tasks.map (fun t => t.estimated_points)).sum = 0 then 0
  else |(tasks.map (fun t => t.estimated_points)).sum -
    (tasks.map (fun t =>
      match t.actual_points with
      | some a => if a = 0 then t.estimated_points else a
      | none => t.estimated_points)).sum| /
    (tasks.map (fun t => t.estimated_points)).sum * 100

/-! ### Helper lemmas -/

instance {ε α : Type} [DecidableEq ε] [DecidableEq α] : DecidableEq (Except ε α)
  | Except.error a, Except.error b =>
      if h : a = b then Decidable.isTrue (congrArg Except.error h)
      else Decidable.isFalse (fun hh => h (Except.error.inj hh))
  | Except.error _, Except.ok _ => Decidable.isFalse (fun hh => Except.noConfusion hh)
  | Except.ok _, Except.error _ => Decidable.isFalse (fun hh => Except.noConfusion hh)
  | Except.ok a, Except.ok b =>
      if h : a = b then Decidable.isTrue (congrArg Except.ok h)
      else Decidable.isFalse (fun hh => h (Except.ok.inj hh))

lemma oneDay_eq : oneDay = 86400 := rfl

lemma dateRange_length_of_le {s e : DateTime} (h : s ≤ e) :
    (dateRange s e).length = daysBetween s e + 1 := by
  unfold dateRange daysBetween
  rw [if_neg (not_lt.mpr h), List.length_map, List.length_range]

lemma self_lt_adjustEnd (s e : DateTime) : s < adjustEnd s e := by
  unfold adjustEnd
  split
  · exact lt_add_of_pos_right s (by decide)
  · next h => exact lt_of_not_ge h

lemma idealBurndown_length (total : ℚ) (n : Nat) :
    (idealBurndown total n).length = n := by
  unfold idealBurndown
  rw [List.length_map, List.length_range]

lemma mkBurndownChart_ok_intro (name : String) (s e : DateTime) (total : ℚ)
    (hname : name ≠ "") (htotal : 0 < total)
    (hne : (dateRange s (adjustEnd s e)).length ≠ 1) :
    mkBurndownChart name s e total = Except.ok
      (BurndownChart.mk name s (adjustEnd s e) total [] []
        (DataFrame.mk (dateRange s (adjustEnd s e))
          (idealBurndown total (dateRange s (adjustEnd s e)).length)
          (idealBurndown total (dateRange s (adjustEnd s e)).length)
          (idealBurndown total (dateRange s (adjustEnd s e)).length))) := by
  unfold mkBurndownChart create_initial_dataframe
  rw [if_neg hname, if_neg (not_le.mpr htotal), if_neg hne]
  rfl

lemma mkBurndownChart_ok_elim {name : String} {s e : DateTime} {total : ℚ}
    {c : BurndownChart} (h : mkBurndownChart name s e total = Except.ok c) :
    c = BurndownChart.mk name s (adjustEnd s e) total [] []
      (DataFrame.mk (dateRange s (adjustEnd s e))
        (idealBurndown total (dateRange s (adjustEnd s e)).length)
        (idealBurndown total (dateRange s (adjustEnd s e)).length)
        (idealBurndown total (dateRange s (adjustEnd s e)).length)) ∧
      (dateRange s (adjustEnd s e)).length ≠ 1 := by
  unfold mkBurndownChart at h
  split at h
  · exact absurd h (by simp)
  split at h
  · exact absurd h (by simp)
  unfold create_initial_dataframe at h
  split at h
  · exact absurd h (by simp [Except.map])
  next hne =>
    refine ⟨?_, hne⟩
    simp only [Except.map, Except.ok.injEq] at h
    exact h.symm

/-- A sample constructed chart (the result of constructing with name
`"Sample"`, start `0`, end `2 days`, total `100`), used by witnesses. -/
def sampleChart : BurndownChart :=
  BurndownChart.mk "Sample" 0 172800 100 [] []
    (DataFrame.mk [0, 86400, 172800] [100, 50, 0] [100, 50, 0] [100, 50, 0])

lemma idealBurndown_100_3 : idealBurndown 100 3 = [100, 50, 0] := by
  simp [idealBurndown, List.range_succ]
  norm_num

lemma sampleChart_eq : mkBurndownChart "Sample" 0 (2 * oneDay) 100 =
    Except.ok sampleChart := by
  have hadj : adjustEnd 0 172800 = 172800 := by decide
  have hdr : dateRange 0 172800 = [0, 86400, 172800] := by decide
  have h2 : (2 : Int) * oneDay = 172800 := by decide
  rw [h2, mkBurndownChart_ok_intro "Sample" 0 172800 100 (by decide) (by norm_num)
    (by rw [hadj, hdr]; decide)]
  simp [sampleChart, hadj, hdr, idealBurndown_100_3]

/-! ### Claims -/

/-- C4: constructing with a non-empty name, `start >= end` and positive total
points does not fail: the end date is silently replaced by
`start + 14 days`, and the resulting series has 15 rows. -/
theorem construction_auto_adjust (name : String) (s e : DateTime) (total : ℚ)
    (hname : name ≠ "") (hse : e ≤ s) (htotal : 0 < total) :
    ∃ c, mkBurndownChart name s e total = Except.ok c ∧
      c.start_date = s ∧ c.end_date = s + 14 * oneDay ∧
      c.df.dates.length = 15 := by
  have hadj : adjustEnd s e = s + 14 * oneDay := by
    unfold adjustEnd
    rw [if_pos hse]
  have hlen : (dateRange s (adjustEnd s e)).length = 15 := by
    rw [hadj, dateRange_length_of_le (le_add_of_nonneg_right (by decide))]
    have h14 : s + 14 * oneDay - s = 14 * oneDay := by ring
    unfold daysBetween
    rw [h14]
    decide
  refine ⟨_, mkBurndownChart_ok_intro name s e total hname htotal (by rw [hlen]; decide),
    rfl, ?_, ?_⟩
  · exact hadj
  · exact hlen

/-- C4 witness: constructing with `start == end` (both `0`) succeeds, the end
becomes 14 days after the start, and the series has 15 rows. -/
theorem construction_auto_adjust_witness :
    ∃ c, mkBurndownChart "p" 0 0 100 = Except.ok c ∧
      c.start_date = 0 ∧ c.end_date = 0 + 14 * oneDay ∧
      c.df.dates.length = 15 :=
  construction_auto_adjust "p" 0 0 100 (by decide) (le_refl 0) (by norm_num)

/-- C10: there are construction inputs passing all documented validation
(non-empty name, start strictly before end on the same calendar day,
positive total) for which no auto-adjustment occurs, the date range has a
single day, and construction fails with a division-by-zero error. -/
theorem single_day_construction_div_zero :
    ∃ name : String, ∃ s : DateTime, ∃ e : DateTime, ∃ total : ℚ,
      name ≠ "" ∧ s < e ∧ sameCalendarDay s e ∧ 0 < total ∧
      mkBurndownChart name s e total = Except.error PyError.zeroDivisionError := by
  refine ⟨"p", 3600, 7200, 10, ?_, ?_, ?_, ?_, ?_⟩ <;> decide

/-- C2: `update_progress` fails with the invalid-points error when the
completed points are negative, fails with the points-exceed-total error when
they exceed the total, and in either failure the project state (tasks,
ledger, series) is returned unchanged. -/
theorem update_progress_validation (c : BurndownChart) (date : DateTime)
    (p : ℚ) (desc : Option String) (h : p < 0 ∨ c.total_story_points < p) :
    (p < 0 → (update_progress c date p desc).1 = Except.error
      (PyError.burndownChartError
        "Completed story points must be a non-negative number")) ∧
    (0 ≤ p → c.total_story_points < p →
      (update_progress c date p desc).1 = Except.error
        (PyError.burndownChartError
          "Completed story points cannot exceed total story points")) ∧
    (update_progress c date p desc).2 = c ∧
    (update_progress c date p desc).2.progress_log.length =
      c.progress_log.length ∧
    (update_progress c date p desc).2.tasks = c.tasks ∧
    (update_progress c date p desc).2.df = c.df := by
  by_cases hp : p < 0
  · unfold update_progress
    rw [if_pos hp]
    exact ⟨fun _ => rfl, fun h0 _ => absurd hp (not_lt.mpr h0), rfl, rfl, rfl, rfl⟩
  · have hpt : c.total_story_points < p := h.resolve_left hp
    unfold update_progress
    rw [if_neg hp, if_pos hpt]
    exact ⟨fun hneg => absurd hneg hp, fun _ _ => rfl, rfl, rfl, rfl, rfl⟩

/-- C2 witness: on the sample chart, updating with `-5` points fails with the
invalid-points error and leaves the state unchanged, and updating with `150`
points (total is `100`) fails with the points-exceed-total error. -/
theorem update_progress_validation_witness :
    (update_progress sampleChart 0 (-5) none).1 = Except.error
      (PyError.burndownChartError
        "Completed story points must be a non-negative number") ∧
    (update_progress sampleChart 0 (-5) none).2 = sampleChart ∧
    (update_progress sampleChart 0 150 none).1 = Except.error
      (PyError.burndownChartError
        "Completed story points cannot exceed total story points") ∧
    (update_progress sampleChart 0 150 none).2 = sampleChart :=
  ⟨(update_progress_validation sampleChart 0 (-5) none (Or.inl (by norm_num))).1
      (by norm_num),
    (update_progress_validation sampleChart 0 (-5) none
      (Or.inl (by norm_num))).2.2.1,
    (update_progress_validation sampleChart 0 150 none
      (Or.inr (by norm_num [sampleChart]))).2.1 (by norm_num)
      (by norm_num [sampleChart]),
    (update_progress_validation sampleChart 0 150 none
      (Or.inr (by norm_num [sampleChart]))).2.2.1⟩

/-- A chart whose ledger holds two entries appended out of date order (the
most recently appended entry has the earlier date), used by witnesses. -/
def ledgerChart : BurndownChart :=
  BurndownChart.mk "Sample" 0 172800 100 []
    [ProgressEntry.mk 86400 30 none, ProgressEntry.mk 0 50 none]
    (DataFrame.mk [0, 86400, 172800] [100, 50, 0] [100, 50, 0] [100, 50, 0])

/-- C3: with a non-empty ledger, the summary's completed story points equal
the most recently *appended* entry's completed points (regardless of the
dates), the progress percentage is that value over the total times 100; with
an empty ledger the summary is all zeroes with the total populated. -/
theorem progress_summary_last_entry (c : BurndownChart) :
    (∀ entry, c.progress_log.getLast? = some entry →
      (get_progress_summary c).completed_story_points = entry.completed_points ∧
      (get_progress_summary c).progress_percentage =
        entry.completed_points / c.total_story_points * 100) ∧
    (c.progress_log = [] →
      get_progress_summary c = ProgressSummary.mk c.total_story_points 0 0 0) := by
  constructor
  · intro entry he
    unfold get_progress_summary
    rw [he]
    exact ⟨rfl, rfl⟩
  · intro h
    unfold get_progress_summary
    rw [h]
    rfl

/-- C3 witness: on `ledgerChart` (whose last-appended entry has completed
points `50` but an earlier date than the previous entry) the summary reports
`50` points and `50` percent; on the empty-ledger `sampleChart` the summary
is all zeroes with the total populated. -/
theorem progress_summary_last_entry_witness :
    (get_progress_summary ledgerChart).completed_story_points = 50 ∧
    (get_progress_summary ledgerChart).progress_percentage = 50 ∧
    get_progress_summary sampleChart = ProgressSummary.mk 100 0 0 0 := by
  have h := (progress_summary_last_entry ledgerChart).1 (ProgressEntry.mk 0 50 none)
    (by decide)
  refine ⟨h.1, ?_, (progress_summary_last_entry sampleChart).2 rfl⟩
  rw [h.2]
  norm_num [ledgerChart]

/-- C5: updating with a valid date outside the project timeline and valid
points does not fail: the date is clamped to the nearest boundary (the start
date if before it, the end date if after it) and an entry with the clamped
date is appended to the ledger. -/
theorem update_progress_clamps (c : BurndownChart) (date : DateTime) (p : ℚ)
    (desc : Option String) (hse : c.start_date ≤ c.end_date)
    (hout : date < c.start_date ∨ c.end_date < date)
    (h0 : 0 ≤ p) (h1 : p ≤ c.total_story_points) :
    (update_progress c date p desc).1 = Except.ok () ∧
    (update_progress c date p desc).2.progress_log =
      c.progress_log ++ [ProgressEntry.mk
        (if date < c.start_date then c.start_date else c.end_date) p desc] := by
  have hcl : clampDate date c.start_date c.end_date =
      (if date < c.start_date then c.start_date else c.end_date) := by
    unfold clampDate
    rw [if_pos (show date < c.start_date ∨ date > c.end_date from hout)]
    by_cases hd : date < c.start_date
    · rw [if_pos hd, min_eq_left (le_trans hd.le hse)]
      exact max_eq_right hd.le
    · rw [if_neg hd, min_eq_right (hout.resolve_left hd).le]
      exact max_eq_left hse
  unfold update_progress
  rw [if_neg (not_lt.mpr h0), if_neg (not_lt.mpr h1)]
  exact ⟨rfl, by rw [hcl]⟩

/-- C5 witness: on the sample chart (timeline `[0, 172800]`), updating at
date `-5` with `30` points succeeds and appends an entry clamped to the
start boundary. -/
theorem update_progress_clamps_witness :
    (update_progress sampleChart (-5) 30 none).1 = Except.ok () ∧
    (update_progress sampleChart (-5) 30 none).2.progress_log =
      sampleChart.progress_log ++ [ProgressEntry.mk
        (if (-5 : Int) < sampleChart.start_date then sampleChart.start_date
          else sampleChart.end_date) 30 none] :=
  update_progress_clamps sampleChart (-5) 30 none (by decide)
    (Or.inl (by decide)) (by decide) (by decide)

/-- C6: `estimate_complexity_points` returns an integer in the tier's
inclusive range for (case-insensitive) easy/medium/hard, assuming only the
documented contract of `np.random.randint`, and fails with the
invalid-complexity error for any other value. -/
theorem complexity_points_range (complexity : String) (randint : Nat → Nat → Nat)
    (hr : ∀ lo hi, lo < hi → lo ≤ randint lo hi ∧ randint lo hi < hi) :
    (pyLower complexity = "easy" →
      ∃ n, estimate_complexity_points complexity randint = Except.ok n ∧
        1 ≤ n ∧ n ≤ 3) ∧
    (pyLower complexity = "medium" →
      ∃ n, estimate_complexity_points complexity randint = Except.ok n ∧
        3 ≤ n ∧ n ≤ 8) ∧
    (pyLower complexity = "hard" →
      ∃ n, estimate_complexity_points complexity randint = Except.ok n ∧
        8 ≤ n ∧ n ≤ 13) ∧
    (pyLower complexity ≠ "easy" → pyLower complexity ≠ "medium" →
      pyLower complexity ≠ "hard" →
      estimate_complexity_points complexity randint = Except.error
        (PyError.burndownChartError
          "Invalid complexity. Choose from: easy, medium, hard")) := by
  refine ⟨?_, ?_, ?_, ?_⟩
  · intro h
    refine ⟨randint 1 4, ?_, (hr 1 4 (by omega)).1, ?_⟩
    · unfold estimate_complexity_points
      rw [h]
      simp [complexity_map]
    · have := (hr 1 4 (by omega)).2
      omega
  · intro h
    refine ⟨randint 3 9, ?_, (hr 3 9 (by omega)).1, ?_⟩
    · unfold estimate_complexity_points
      rw [h]
      simp [complexity_map]
    · have := (hr 3 9 (by omega)).2
      omega
  · intro h
    refine ⟨randint 8 14, ?_, (hr 8 14 (by omega)).1, ?_⟩
    · unfold estimate_complexity_points
      rw [h]
      simp [complexity_map]
    · have := (hr 8 14 (by omega)).2
      omega
  · intro h1 h2 h3
    unfold estimate_complexity_points complexity_map
    rw [if_neg h1, if_neg h2, if_neg h3]

/-- C6 witness: with the deterministic random source returning the lower
bound, estimating `"HARD"` yields a value in `[8, 13]`. -/
theorem complexity_points_range_witness :
    ∃ n, estimate_complexity_points "HARD" (fun lo _ => lo) = Except.ok n ∧
      8 ≤ n ∧ n ≤ 13 :=
  (complexity_points_range "HARD" (fun lo _ => lo)
    (fun lo _ h => ⟨Nat.le_refl lo, h⟩)).2.2.1 (by decide)

/-- A chart holding one task whose actual points are `0` (estimated `5`) and
a non-empty ledger, exhibiting the truthiness fallback in the variance. -/
def varianceChart : BurndownChart :=
  BurndownChart.mk "Sample" 0 172800 100 [Task.init "t" 5 (some 0) none]
    [ProgressEntry.mk 0 30 none]
    (DataFrame.mk [0, 86400, 172800] [100, 50, 0] [100, 50, 0] [100, 50, 0])

/-- C7 counterexample: on `varianceChart` (one task with estimate `5` and
*present* actual points `0`, non-empty ledger) the code reports variance `0`
while the claim's formula — where only a task *lacking* actual points falls
back to its estimate — yields `100`. -/
theorem variance_truthiness_counterexample :
    (get_progress_summary varianceChart).estimated_vs_actual_variance = 0 ∧
    specVariance varianceChart.tasks = 100 ∧
    (get_progress_summary varianceChart).estimated_vs_actual_variance ≠
      specVariance varianceChart.tasks := by
  have he : varianceChart.progress_log.getLast? = some (ProgressEntry.mk 0 30 none) := by
    decide
  have h1 : (get_progress_summary varianceChart).estimated_vs_actual_variance = 0 := by
    unfold get_progress_summary
    rw [he]
    norm_num [varianceChart, Task.init, orTruthy]
  have h2 : specVariance varianceChart.tasks = 100 := by
    unfold specVariance
    norm_num [varianceChart, Task.init]
  refine ⟨h1, h2, ?_⟩
  rw [h1, h2]
  norm_num

/-- C7 as amended: the summary's variance equals
`abs(sumEstimated - sumActual) / sumEstimated * 100` where a task lacking
actual points *or whose actual points equal zero* contributes its estimate,
and `0` when the estimated sum is `0`. -/
theorem variance_formula_amended (c : BurndownChart) (entry : ProgressEntry)
    (he : c.progress_log.getLast? = some entry) :
    (get_progress_summary c).estimated_vs_actual_variance =
      specVarianceAmended c.tasks := by
  have hA : (c.tasks.map (fun t => orTruthy t.actual_points t.estimated_points)).sum =
      (c.tasks.map (fun t =>
        match t.actual_points with
        | some a => if a = 0 then t.estimated_points else a
        | none => t.estimated_points)).sum := by
    have hfun : (fun (t : Task) => orTruthy t.actual_points t.estimated_points) =
        (fun (t : Task) =>
          match t.actual_points with
          | some a => if a = 0 then t.estimated_points else a
          | none => t.estimated_points) := by
      funext t
      cases t.actual_points <;> rfl
    rw [hfun]
  unfold get_progress_summary specVarianceAmended
  rw [he]
  by_cases hS : (c.tasks.map (fun t => t.estimated_points)).sum = 0
  · rw [if_pos hS]
    exact if_neg (not_not_intro hS)
  · rw [if_neg hS]
    rw [show ((if (c.tasks.map (fun t => t.estimated_points)).sum ≠ 0
      then |(c.tasks.map (fun t => t.estimated_points)).sum -
        (c.tasks.map (fun t => orTruthy t.actual_points t.estimated_points)).sum| /
        (c.tasks.map (fun t => t.estimated_points)).sum * 100 else 0) =
      |(c.tasks.map (fun t => t.estimated_points)).sum -
        (c.tasks.map (fun t => orTruthy t.actual_points t.estimated_points)).sum| /
        (c.tasks.map (fun t => t.estimated_points)).sum * 100) from if_pos hS, hA]

/-- C7 (amended) witness: on `varianceChart` the summary's variance equals
the amended formula's value. -/
theorem variance_formula_amended_witness :
    (get_progress_summary varianceChart).estimated_vs_actual_variance =
      specVarianceAmended varianceChart.tasks :=
  variance_formula_amended varianceChart (ProgressEntry.mk 0 30 none) (by decide)

/-- C9 counterexample: completing a task (estimate `5`) while supplying
actual points `0` does not store the supplied value `0`; the Python `or`
treats `0` as falsy and stores the estimate `5` instead. -/
theorem task_complete_zero_counterexample :
    (Task.complete (Task.init "t" 5 none none) (some 0) none 0).actual_points ≠
      some 0 ∧
    (Task.complete (Task.init "t" 5 none none) (some 0) none 0).actual_points =
      some 5 := by
  constructor <;> decide

/-- C9 as amended: completion sets the status to Completed; actual points
become the supplied value when a *nonzero* value is supplied and the task's
own estimate when the value is omitted or zero; the end date becomes the
supplied value when supplied and the current time when omitted. -/
theorem task_complete_spec (t : Task) (actual_points : Option ℚ)
    (end_date : Option DateTime) (now : DateTime) :
    (t.complete actual_points end_date now).status = "Completed" ∧
    (∀ a, actual_points = some a → a ≠ 0 →
      (t.complete actual_points end_date now).actual_points = some a) ∧
    ((actual_points = none ∨ actual_points = some 0) →
      (t.complete actual_points end_date now).actual_points =
        some t.estimated_points) ∧
    (∀ d, end_date = some d →
      (t.complete actual_points end_date now).end_date = some d) ∧
    (end_date = none →
      (t.complete actual_points end_date now).end_date = some now) := by
  refine ⟨rfl, ?_, ?_, ?_, ?_⟩
  · intro a ha hz
    subst ha
    simp [Task.complete, orTruthy, hz]
  · intro h
    rcases h with h | h <;> subst h <;> simp [Task.complete, orTruthy]
  · intro d hd
    subst hd
    rfl
  · intro h
    subst h
    rfl

/-- C9 (amended) witness: completing with supplied nonzero points `7` and
end date `99` stores them; completing with both omitted stores the estimate
`5` and the current time `3`. -/
theorem task_complete_spec_witness :
    (Task.complete (Task.init "t" 5 none none) (some 7) (some 99) 0).status =
      "Completed" ∧
    (Task.complete (Task.init "t" 5 none none) (some 7) (some 99) 0).actual_points =
      some 7 ∧
    (Task.complete (Task.init "t" 5 none none) (some 7) (some 99) 0).end_date =
      some 99 ∧
    (Task.complete (Task.init "t" 5 none none) none none 3).actual_points =
      some 5 ∧
    (Task.complete (Task.init "t" 5 none none) none none 3).end_date = some 3 :=
  ⟨(task_complete_spec (Task.init "t" 5 none none) (some 7) (some 99) 0).1,
    (task_complete_spec (Task.init "t" 5 none none) (some 7) (some 99) 0).2.1 7
      rfl (by decide),
    (task_complete_spec (Task.init "t" 5 none none) (some 7) (some 99) 0).2.2.2.1
      99 rfl,
    (task_complete_spec (Task.init "t" 5 none none) none none 3).2.2.1
      (Or.inl rfl),
    (task_complete_spec (Task.init "t" 5 none none) none none 3).2.2.2.2 rfl⟩

lemma maskSet_idem (dates : List DateTime) (col : List ℚ) (d : DateTime) (v : ℚ) :
    maskSet dates (maskSet dates col d v) d v = maskSet dates col d v := by
  induction dates generalizing col with
  | nil => rfl
  | cons x xs ih =>
    cases col with
    | nil => rfl
    | cons a as =>
      simp only [maskSet, List.zipWith_cons_cons]
      refine congrArg₂ List.cons ?_ ?_
      · by_cases hx : x = d <;> simp [hx]
      · simpa [maskSet] using ih as

lemma update_progress_ok (c : BurndownChart) (date : DateTime) (p : ℚ)
    (desc : Option String) (h0 : 0 ≤ p) (h1 : p ≤ c.total_story_points) :
    update_progress c date p desc = (Except.ok (),
      { c with
        progress_log := c.progress_log ++
          [ProgressEntry.mk (clampDate date c.start_date c.end_date) p desc]
        df := { c.df with
          actual := maskSet c.df.dates c.df.actual
            (clampDate date c.start_date c.end_date)
            (c.total_story_points - p) } }) := by
  unfold update_progress
  rw [if_neg (not_lt.mpr h0), if_neg (not_lt.mpr h1)]

/-- C8: applying `update_progress` twice with the same valid date and points
leaves the series' actual-remaining column identical to applying it once,
while each of the two calls grows the ledger by exactly one entry. -/
theorem update_progress_idempotent (c : BurndownChart) (date : DateTime) (p : ℚ)
    (desc : Option String) (h0 : 0 ≤ p) (h1 : p ≤ c.total_story_points) :
    (update_progress (update_progress c date p desc).2 date p desc).2.df.actual =
      (update_progress c date p desc).2.df.actual ∧
    (update_progress c date p desc).2.progress_log.length =
      c.progress_log.length + 1 ∧
    (update_progress (update_progress c date p desc).2 date p
        desc).2.progress_log.length =
      (update_progress c date p desc).2.progress_log.length + 1 := by
  have e1 := update_progress_ok c date p desc h0 h1
  have e2 := update_progress_ok (update_progress c date p desc).2 date p desc h0
    (by rw [e1]; exact h1)
  rw [e2, e1]
  refine ⟨maskSet_idem c.df.dates c.df.actual _ _, ?_, ?_⟩ <;> simp

/-- C8 witness: on the sample chart with date `0` and `30` points. -/
theorem update_progress_idempotent_witness :
    (update_progress (update_progress sampleChart 0 30 none).2 0 30
        none).2.df.actual =
      (update_progress sampleChart 0 30 none).2.df.actual ∧
    (update_progress sampleChart 0 30 none).2.progress_log.length =
      sampleChart.progress_log.length + 1 ∧
    (update_progress (update_progress sampleChart 0 30 none).2 0 30
        none).2.progress_log.length =
      (update_progress sampleChart 0 30 none).2.progress_log.length + 1 :=
  update_progress_idempotent sampleChart 0 30 none (by decide) (by decide)

lemma getElem?_idealBurndown (total : ℚ) (n d : Nat) (hd : d < n) :
    (idealBurndown total n)[d]? =
      some (total - total * (d : ℚ) / ((n : ℚ) - 1)) := by
  unfold idealBurndown
  rw [List.getElem?_map, List.getElem?_range hd]
  rfl

/-- C1: for every successful construction, the series has exactly
`daysBetween(start, end) + 1` rows (with `end` the possibly auto-adjusted
end date), the ideal value on the first day is the total story points, the
ideal value on the last day is `0` when the day count exceeds one, and the
ideal value on day `d` is `total * (1 - d / (N - 1))` for `N` the day
count. -/
theorem construction_series_spec (name : String) (s e : DateTime) (total : ℚ)
    (c : BurndownChart) (h : mkBurndownChart name s e total = Except.ok c) :
    c.df.dates.length = daysBetween c.start_date c.end_date + 1 ∧
    c.df.ideal.length = c.df.dates.length ∧
    c.df.ideal.head? = some total ∧
    (1 < c.df.dates.length → c.df.ideal.getLast? = some 0) ∧
    (∀ (d : Nat) (r : ℚ), c.df.ideal[d]? = some r →
      r = total * (1 - (d : ℚ) / ((c.df.dates.length : ℚ) - 1))) := by
  obtain ⟨hc, hne⟩ := mkBurndownChart_ok_elim h
  subst hc
  dsimp only
  have hlen : (dateRange s (adjustEnd s e)).length =
      daysBetween s (adjustEnd s e) + 1 :=
    dateRange_length_of_le (self_lt_adjustEnd s e).le
  have hpos : 0 < (dateRange s (adjustEnd s e)).length := by
    rw [hlen]; omega
  have h2 : 2 ≤ (dateRange s (adjustEnd s e)).length := by omega
  have hne0 : ((dateRange s (adjustEnd s e)).length : ℚ) - 1 ≠ 0 := by
    have h2q : (2 : ℚ) ≤ ((dateRange s (adjustEnd s e)).length : ℚ) := by
      exact_mod_cast h2
    intro heq
    have : ((dateRange s (adjustEnd s e)).length : ℚ) = 1 := by linarith
    linarith
  refine ⟨hlen, idealBurndown_length total _, ?_, ?_, ?_⟩
  · rw [List.head?_eq_getElem?, getElem?_idealBurndown total _ 0 hpos]
    norm_num
  · intro _
    rw [List.getLast?_eq_getElem?, idealBurndown_length,
      getElem?_idealBurndown total _ _ (by omega)]
    have hx : (((dateRange s (adjustEnd s e)).length - 1 : ℕ) : ℚ) =
        ((dateRange s (adjustEnd s e)).length : ℚ) - 1 := by
      have hge : 1 ≤ (dateRange s (adjustEnd s e)).length := by omega
      push_cast [Nat.cast_sub hge]
      ring
    rw [hx, mul_div_assoc, div_self hne0, mul_one, sub_self]
  · intro d r hr
    by_cases hd : d < (dateRange s (adjustEnd s e)).length
    · rw [getElem?_idealBurndown total _ d hd] at hr
      injection hr with hr
      rw [← hr]
      ring
    · rw [List.getElem?_eq_none
        (by rw [idealBurndown_length]; omega)] at hr
      exact absurd hr (by simp)

/-- A two-day chart (the result of constructing with name `"p"`, start `0`,
end one day later, total `10`), used by the C1 witness. -/
def twoDayChart : BurndownChart :=
  BurndownChart.mk "p" 0 86400 10 [] []
    (DataFrame.mk [0, 86400] [10, 0] [10, 0] [10, 0])

lemma twoDayChart_eq : mkBurndownChart "p" 0 oneDay 10 = Except.ok twoDayChart := by
  have hadj : adjustEnd 0 86400 = 86400 := by decide
  have hdr : dateRange 0 86400 = [0, 86400] := by decide
  have hib : idealBurndown 10 2 = [10, 0] := by
    simp [idealBurndown, List.range_succ]
    norm_num
  rw [oneDay_eq, mkBurndownChart_ok_intro "p" 0 86400 10 (by decide) (by norm_num)
    (by rw [hadj, hdr]; decide)]
  simp [twoDayChart, hadj, hdr, hib]

/-- C1 witness: the two-day construction (start `0`, end `86400`, total
`10`) yields a 2-row series whose ideal curve runs from `10` to `0` along
the interpolation formula. -/
theorem construction_series_spec_witness :
    twoDayChart.df.dates.length =
      daysBetween twoDayChart.start_date twoDayChart.end_date + 1 ∧
    twoDayChart.df.ideal.length = twoDayChart.df.dates.length ∧
    twoDayChart.df.ideal.head? = some 10 ∧
    (1 < twoDayChart.df.dates.length → twoDayChart.df.ideal.getLast? = some 0) ∧
    (∀ (d : Nat) (r : ℚ), twoDayChart.df.ideal[d]? = some r →
      r = 10 * (1 - (d : ℚ) / ((twoDayChart.df.dates.length : ℚ) - 1))) :=
  construction_series_spec "p" 0 oneDay 10 twoDayChart twoDayChart_eq

end Burndown
